import Mathlib

/-!
Verification of the FlowCal calendar scheduling engine.

The definitions below are a shallow embedding of the scheduling core of the
`VibeCalendarScheduler` React component: conflict detection
(`checkConflicts`), availability search (`generateAvailabilities`),
add/edit command handling with recurrence expansion (`handleAdd`), deletion
(`confirmDelete`), and the periodic reminder evaluator (`tick`).

Modelling conventions:
- An absolute instant is an `Int`, measured in minutes.  A timezone is
  modelled by its offset in minutes (`Int`); `dayjs.tz(date + "T" + time, tz)`
  becomes `resolveInstant`, which subtracts the offset from the local
  minute count.  Daylight-saving variation of the offset is irrelevant to
  every property proved here, so a fixed offset per event is used.
- A calendar date is a `Nat` counting days from the epoch; `dayjs`'s
  `add(i, "day"/"week")` become `+ i` / `+ 7 * i` on that count, and
  `add(i, "month")` is implemented with proleptic-Gregorian civil-date
  conversion with end-of-month clamping, matching dayjs month addition.
- A wall-clock time-of-day is a `Nat` counting minutes after midnight;
  `cursor.format("HH:mm")` is modelled by that minute count.
- `Date.now()` is modelled by a single `nowMs` parameter per `handleAdd`
  call; the base event receives id `nowMs` and the i-th expanded occurrence
  id `nowMs + i`, exactly as in the source.
- The stored event collection is a `List Event`; React's
  `setEvents(prev => ...)` updater becomes a pure function of that list.
- A reminder notification's `message` field holds the `remindAt` instant
  (the source stores `remindAt.format()`, which determines and is
  determined by that instant for the event's fixed timezone).
-/

namespace FlowCal

/-- Recurrence frequency of an event: the `repeat` field of the source,
one of `"none" | "daily" | "weekly" | "monthly"`. -/
inductive Frequency where
  | none
  | daily
  | weekly
  | monthly
deriving DecidableEq

/-- A stored calendar event.  `buffer` is `Option Nat` because events
supplied from outside the form may lack the attribute entirely
(JavaScript `undefined`), which the source treats via `evt.buffer || 15`. -/
structure Event where
  id : Nat
  title : String
  date : Nat
  time : Nat
  duration : Nat
  timezone : Int
  buffer : Option Nat
  freq : Frequency
  reminder : Nat
  attendees : List String
  location : String
  description : String
  status : String
deriving DecidableEq

/-- The draft form state (`newEvent` in the source).  `id` is `none` for a
fresh draft and for the synthetic probe used by the availability scan;
`date`/`time` are `Option` because the corresponding form fields can be
empty strings, which the validation step of `handleAdd` rejects. -/
structure Draft where
  id : Option Nat
  title : String
  date : Option Nat
  time : Option Nat
  duration : Nat
  timezone : Int
  buffer : Nat
  freq : Frequency
  reminder : Nat
  attendees : List String
  location : String
  description : String
  status : String
deriving DecidableEq

/-- `dayjs.tz(date + "T" + time, timezone)` as an absolute instant in
minutes: local minutes minus the zone offset. -/
def resolveInstant (date time : Nat) (tz : Int) : Int :=
  (date * 1440 + time : Int) - tz

/-- Start instant of a stored event. -/
def Event.startInstant (e : Event) : Int :=
  resolveInstant e.date e.time e.timezone

/-- The buffer value the conflict check actually uses for a stored event:
`evt.buffer || 15` in the source, i.e. the fallback 15 applies both when
the attribute is absent and when it is `0` (JavaScript falsiness). -/
def Event.effBuffer (e : Event) : Nat :=
  match e.buffer with
  | Option.none => 15
  | Option.some b => if b = 0 then 15 else b

/-- Conflict-window end of a stored event, as computed at line 95 of the
source: `eStart.add(evt.duration + (evt.buffer || 15), "minute")`. -/
def Event.windowEnd (e : Event) : Int :=
  e.startInstant + (e.duration : Int) + (e.effBuffer : Int)

/-- Start instant of a draft.  Only evaluated after validation has ensured
`date` and `time` are present, or on the always-present probe drafts built
by the availability scan. -/
def Draft.startInstant (d : Draft) : Int :=
  resolveInstant (d.date.getD 0) (d.time.getD 0) d.timezone

/-- Conflict-window end of the candidate draft: `start.add(testEvent.duration
+ testEvent.buffer, "minute")` — the draft's own buffer, no fallback. -/
def Draft.windowEnd (d : Draft) : Int :=
  d.startInstant + (d.duration : Int) + (d.buffer : Int)

/-- The per-event test inside `checkConflicts`: skip when `evt.id ===
testEvent.id`, then report a conflict iff `start.isBefore(eEnd) &&
end.isAfter(eStart)`. -/
def conflictsWith (t : Draft) (e : Event) : Bool :=
  t.id != Option.some e.id &&
    decide (t.startInstant < e.windowEnd) && decide (e.startInstant < t.windowEnd)

/-- `checkConflicts(testEvent, list)` from the source: the titles of all
events in `list` whose conflict window intersects the candidate's. -/
def checkConflicts (t : Draft) (list : List Event) : List String :=
  (list.filter (conflictsWith t)).map Event.title

/-- The probe draft built for one cursor position inside
`generateAvailabilities`: only `date`, `time`, `duration`, `buffer` and
`timezone` are populated in the source; in particular it carries no `id`. -/
def mkSlotTest (d : Draft) (date : Nat) (cursor : Nat) : Draft :=
  { id := Option.none, title := "", date := Option.some date,
    time := Option.some cursor, duration := d.duration, timezone := d.timezone,
    buffer := d.buffer, freq := Frequency.none, reminder := 0, attendees := [],
    location := "", description := "", status := "" }

/-- The scan loop of `generateAvailabilities`: while `cursor + duration ≤
17:00`, record the cursor when the probe has no conflicts, advance by 30
minutes, and stop as soon as 6 slots are collected.  The `fuel` argument
bounds the iteration count; from the entry point it is 17, exactly the
number of 30-minute steps from 09:00 (minute 540) through 17:00 (minute
1020), so the fuel can never run out before the while-condition fails. -/
def availLoop (d : Draft) (events : List Event) (date : Nat) :
    Nat → Nat → List Nat → List Nat
  | 0, _, slots => slots
  | fuel + 1, cursor, slots =>
    if cursor + d.duration ≤ 1020 then
      let slots' :=
        if (checkConflicts (mkSlotTest d date cursor) events).isEmpty then
          slots ++ [cursor]
        else slots
      if 6 ≤ slots'.length then slots'
      else availLoop d events date fuel (cursor + 30) slots'
    else slots

/-- `generateAvailabilities(date)` from the source: scan the 09:00–17:00
work window in 30-minute steps, returning at most 6 conflict-free start
times (as minutes after midnight). -/
def generateAvailabilities (d : Draft) (events : List Event) (date : Nat) :
    List Nat :=
  availLoop d events date 17 540 []

/-- One entry of the in-app notification list (`reminders` state).  The
source stores `{ id, message: remindAt.format(), event, text }`; `message`
is modelled by the `remindAt` instant. -/
structure ReminderNotif where
  id : Nat
  message : Int
  text : String
deriving DecidableEq

/-- Display text of a notification (partial model of the template string
built at line 214 of the source; no claim depends on its exact shape). -/
def reminderText (e : Event) : String :=
  "Reminder: " ++ e.title

/-- `remindAt = eventTime.subtract(event.reminder, "minute")`. -/
def remindAt (e : Event) : Int :=
  e.startInstant - (e.reminder : Int)

/-- The emission condition checked for each event inside the reminder
interval callback: a nonzero reminder, `now.isAfter(remindAt)` (strict),
`now.isBefore(eventTime)` (strict), and no notification already present
with the same `(event id, remindAt)` key.  The dedup check reads the
notification list as it was when the tick started (the `reminders` closure
variable), which is why it is a parameter here. -/
def dueAndNew (now : Int) (existing : List ReminderNotif) (e : Event) : Bool :=
  e.reminder != 0 && decide (remindAt e < now) && decide (now < e.startInstant) &&
    !(existing.any fun r => r.id == e.id && r.message == remindAt e)

/-- The notification record appended for a due event. -/
def mkNotif (e : Event) : ReminderNotif :=
  { id := e.id, message := remindAt e, text := reminderText e }

/-- The notifications newly appended by one tick of the reminder interval:
one per event that passes `dueAndNew`, in event-collection order. -/
def emitted (now : Int) (events : List Event) (existing : List ReminderNotif) :
    List ReminderNotif :=
  (events.filter (dueAndNew now existing)).map mkNotif

/-- One tick of the 30-second reminder interval: the notification list
after the tick, i.e. the previous list with the newly due notifications
appended (each `setReminders(prev => [...prev, n])` call). -/
def tick (now : Int) (events : List Event) (existing : List ReminderNotif) :
    List ReminderNotif :=
  existing ++ emitted now events existing

/-- `confirmDelete` from the source: `prev.filter(e => e.id !==
eventToDelete.id)`. -/
def confirmDelete (events : List Event) (targetId : Nat) : List Event :=
  events.filter fun e => e.id != targetId

/-- The required-field validation at the top of `handleAdd`:
`!newEvent.title || !newEvent.date || !newEvent.time` rejects. -/
def validate (d : Draft) : Bool :=
  d.title != "" && d.date.isSome && d.time.isSome

/-- Leap-year test of the proleptic Gregorian calendar. -/
def isLeap (y : Int) : Bool :=
  y % 4 == 0 && (y % 100 != 0 || y % 400 == 0)

/-- Number of days in month `m` (1..12) of year `y`. -/
def lastDayOfMonth (y : Int) (m : Nat) : Nat :=
  if m == 2 then (if isLeap y then 29 else 28)
  else if m == 4 || m == 6 || m == 9 || m == 11 then 30
  else 31

/-- Civil (year, month, day) of an epoch day count (days since
1970-01-01), proleptic Gregorian. -/
def civilFromDays (z : Int) : Int × Nat × Nat :=
  let z2 := z + 719468
  let era : Int := (if 0 ≤ z2 then z2 else z2 - 146096) / 146097
  let doe : Nat := (z2 - era * 146097).toNat
  let yoe : Nat := (doe - doe / 1460 + doe / 36524 - doe / 146096) / 365
  let y : Int := (yoe : Int) + era * 400
  let doy : Nat := doe - (365 * yoe + yoe / 4 - yoe / 100)
  let mp : Nat := (5 * doy + 2) / 153
  let dd : Nat := doy - (153 * mp + 2) / 5 + 1
  let mm : Nat := if mp < 10 then mp + 3 else mp - 9
  (if mm ≤ 2 then y + 1 else y, mm, dd)

/-- Epoch day count of a civil (year, month, day), proleptic Gregorian. -/
def daysFromCivil (y : Int) (m : Nat) (d : Nat) : Int :=
  let y2 := if m ≤ 2 then y - 1 else y
  let era : Int := (if 0 ≤ y2 then y2 else y2 - 399) / 400
  let yoe : Nat := (y2 - era * 400).toNat
  let mp : Nat := if 2 < m then m - 3 else m + 9
  let doy : Nat := (153 * mp + 2) / 5 + d - 1
  let doe : Nat := yoe * 365 + yoe / 4 - yoe / 100 + doy
  era * 146097 + (doe : Int) - 719468

/-- dayjs `add(i, "month")` on an epoch-day date: advance the month index
with year carry and clamp the day-of-month to the target month's length. -/
def addMonths (date : Nat) (i : Nat) : Nat :=
  match civilFromDays (date : Int) with
  | (y, m, d) =>
    let months := m - 1 + i
    let y2 := y + (months / 12 : Nat)
    let m2 := months % 12 + 1
    let d2 := min d (lastDayOfMonth y2 m2)
    (daysFromCivil y2 m2 d2).toNat

/-- The date of the i-th expanded occurrence: `base.add(i, "day" | "week" |
"month")` by frequency.  The `Frequency.none` branch is unreachable from
`handleAdd`, whose expansion block is guarded by `repeat !== "none"`. -/
def shiftDate (f : Frequency) (i : Nat) (date : Nat) : Nat :=
  match f with
  | Frequency.none => date
  | Frequency.daily => date + i
  | Frequency.weekly => date + 7 * i
  | Frequency.monthly => addMonths date i

/-- `{ ...newEvent, id, status }`: the stored event built from a draft. -/
def Draft.toEvent (d : Draft) (newId : Nat) (st : String) : Event :=
  { id := newId, title := d.title, date := d.date.getD 0, time := d.time.getD 0,
    duration := d.duration, timezone := d.timezone, buffer := Option.some d.buffer,
    freq := d.freq, reminder := d.reminder, attendees := d.attendees,
    location := d.location, description := d.description, status := st }

/-- The recurrence expansion of the add branch of `handleAdd`: the base
event followed, when `repeat !== "none"`, by the five occurrences
`{ ...toAdd, id: nowMs + i, date: base.add(i, unit) }` for i = 1..5. -/
def expandSeries (toAdd : Event) (f : Frequency) (nowMs : Nat) : List Event :=
  if f = Frequency.none then [toAdd]
  else
    toAdd :: (List.range 5).map fun i =>
      { toAdd with id := nowMs + (i + 1), date := shiftDate f (i + 1) toAdd.date }

/-- Result discriminator of `handleAdd` (the source signals conflicts via
the `conflicts` state and missing fields via an early return; there is no
not-found outcome anywhere in the source). -/
inductive AddOutcome where
  | validationError
  | conflictError (titles : List String)
  | edited
  | added
deriving DecidableEq

/-- `handleAdd` from the source, acting on the stored event list:
validation, then conflict check against `events.filter(e => e.id !==
editEventId)`, then either in-place replacement (edit mode) or atomic
append of the whole expanded series (add mode).  The branch selector
`if (editEventId)` is JavaScript truthiness: both `null` and the id `0`
are falsy and take the add branch, so it is modelled as
`editId.getD 0 ≠ 0` (`none` and `some 0` both select the add branch),
while the strict `!==` of the conflict filter keeps comparing the raw
`editId`. -/
def handleAdd (d : Draft) (editId : Option Nat) (nowMs : Nat)
    (events : List Event) : List Event × AddOutcome :=
  if validate d = true then
    let errs := checkConflicts d (events.filter fun e => Option.some e.id != editId)
    if errs = [] then
      if editId.getD 0 ≠ 0 then
        (events.map fun e =>
          if e.id = editId.getD 0 then d.toEvent (editId.getD 0) d.status else e,
          AddOutcome.edited)
      else
        (events ++ expandSeries (d.toEvent nowMs "confirmed") d.freq nowMs,
          AddOutcome.added)
    else (events, AddOutcome.conflictError errs)
  else (events, AddOutcome.validationError)

/-- Fixture: a stored event on epoch day 0 at 10:00 UTC, one hour long,
buffer 15 (conflict window minutes 600–675), reminder 10 minutes. -/
def evStandup : Event :=
  { id := 1, title := "Standup", date := 0, time := 600, duration := 60,
    timezone := 0, buffer := Option.some 15, freq := Frequency.none,
    reminder := 10, attendees := [], location := "", description := "",
    status := "confirmed" }

/-- Fixture: a stored event at 10:00 with buffer explicitly `0`. -/
def evZeroBuffer : Event :=
  { id := 2, title := "ZeroBuf", date := 0, time := 600, duration := 60,
    timezone := 0, buffer := Option.some 0, freq := Frequency.none,
    reminder := 0, attendees := [], location := "", description := "",
    status := "confirmed" }

/-- Fixture: a candidate starting at 11:00, exactly where `evZeroBuffer`'s
nominal end (start + duration, no buffer) lies. -/
def candTouching : Draft :=
  { id := Option.none, title := "Probe", date := Option.some 0,
    time := Option.some 660, duration := 30, timezone := 0, buffer := 0,
    freq := Frequency.none, reminder := 0, attendees := [], location := "",
    description := "", status := "" }

/-- Fixture: a candidate at 10:30 overlapping `evStandup`. -/
def candOverlap : Draft :=
  { id := Option.none, title := "Probe2", date := Option.some 0,
    time := Option.some 630, duration := 30, timezone := 0, buffer := 0,
    freq := Frequency.none, reminder := 0, attendees := [], location := "",
    description := "", status := "" }

/-- Fixture: a candidate starting at 11:15, exactly at `evStandup`'s
conflict-window end (600 + 60 + 15). -/
def candTouchWindow : Draft :=
  { id := Option.none, title := "Probe3", date := Option.some 0,
    time := Option.some 675, duration := 30, timezone := 0, buffer := 0,
    freq := Frequency.none, reminder := 0, attendees := [], location := "",
    description := "", status := "" }

/-- Fixture: a draft missing its title. -/
def draftNoTitle : Draft :=
  { id := Option.none, title := "", date := Option.some 0,
    time := Option.some 120, duration := 30, timezone := 0, buffer := 0,
    freq := Frequency.none, reminder := 0, attendees := [], location := "",
    description := "", status := "" }

/-- Fixture: a valid draft colliding head-on with `evStandup`. -/
def draftClash : Draft :=
  { id := Option.none, title := "Clash", date := Option.some 0,
    time := Option.some 600, duration := 60, timezone := 0, buffer := 15,
    freq := Frequency.none, reminder := 0, attendees := [], location := "",
    description := "", status := "" }

/-- Fixture: a valid draft far away from `evStandup` (01:00–01:30). -/
def draftFar : Draft :=
  { id := Option.none, title := "Far", date := Option.some 0,
    time := Option.some 60, duration := 30, timezone := 0, buffer := 0,
    freq := Frequency.none, reminder := 0, attendees := [], location := "",
    description := "", status := "" }

/-- Fixture: a valid weekly-repeating draft. -/
def draftWeekly : Draft :=
  { id := Option.none, title := "Weekly", date := Option.some 3,
    time := Option.some 600, duration := 60, timezone := 0, buffer := 15,
    freq := Frequency.weekly, reminder := 0, attendees := [], location := "",
    description := "", status := "" }

/-- Fixture: a stored weekly-repeating event whose id is `0` — a value the
JS-falsy guard `if (editEventId)` cannot distinguish from "not editing". -/
def evZeroId : Event :=
  { id := 0, title := "ZeroId", date := 0, time := 600, duration := 60,
    timezone := 0, buffer := Option.some 15, freq := Frequency.weekly,
    reminder := 0, attendees := [], location := "", description := "",
    status := "confirmed" }

/-- Fixture: the draft produced by pressing Edit on `evZeroId`
(`setNewEvent({ ...event })` copies every field, including the id). -/
def draftEditZero : Draft :=
  { id := Option.some 0, title := "ZeroId", date := Option.some 0,
    time := Option.some 600, duration := 60, timezone := 0, buffer := 15,
    freq := Frequency.weekly, reminder := 0, attendees := [], location := "",
    description := "", status := "confirmed" }

theorem conflictsWith_iff (t : Draft) (e : Event) :
    conflictsWith t e = true ↔
      t.id ≠ Option.some e.id ∧
      t.startInstant < e.startInstant + (e.duration : Int) + (e.effBuffer : Int) ∧
      e.startInstant < t.startInstant + (t.duration : Int) + (t.buffer : Int) := by
  simp [conflictsWith, Event.windowEnd, Draft.windowEnd, and_assoc]

theorem checkConflicts_eq_nil_iff (t : Draft) (l : List Event) :
    checkConflicts t l = [] ↔ ∀ e ∈ l, conflictsWith t e = false := by
  simp [checkConflicts, List.filter_eq_nil_iff]

theorem checkConflicts_isEmpty_iff (t : Draft) (l : List Event) :
    (checkConflicts t l).isEmpty = true ↔ ∀ e ∈ l, conflictsWith t e = false := by
  rw [List.isEmpty_iff]
  exact checkConflicts_eq_nil_iff t l

theorem dueAndNew_iff (now : Int) (ex : List ReminderNotif) (e : Event) :
    dueAndNew now ex e = true ↔
      e.reminder ≠ 0 ∧ remindAt e < now ∧ now < e.startInstant ∧
        ∀ r ∈ ex, ¬(r.id = e.id ∧ r.message = remindAt e) := by
  simp [dueAndNew, List.any_eq_true, not_and, and_assoc]

theorem map_if_id_of_no_match (tid : Nat) (x : Event) :
    ∀ l : List Event, (∀ e ∈ l, e.id ≠ tid) →
      (l.map fun e => if e.id = tid then x else e) = l := by
  intro l hl
  induction l with
  | nil => rfl
  | cons a as ih =>
    simp only [List.map_cons, List.cons.injEq]
    refine ⟨if_neg (hl a (List.mem_cons_self a as)), ?_⟩
    exact ih fun e he => hl e (List.mem_cons_of_mem a he)

/-- C1, counterexample: with event `evStandup` (start minute 600, reminder
10, so `remindAt` = 590) and an empty notification list, a tick exactly at
`now = remindAt` emits nothing, although `remindAt ≤ now < eventStart`
holds and the claim requires an emission: the source tests
`now.isAfter(remindAt)`, which is strict. -/
theorem tick_at_remindAt_no_emission :
    0 < evStandup.reminder ∧
    remindAt evStandup ≤ remindAt evStandup ∧
    remindAt evStandup < evStandup.startInstant ∧
    tick (remindAt evStandup) [evStandup] [] = [] := by decide

/-- C1 (amended): a tick at instant `now` emits a notification keyed like
`mkNotif e` exactly when some stored event with that key has `reminder > 0`,
satisfies `remindAt < now < eventStart` — strictly after `remindAt`, so a
tick at `now = remindAt` does not emit — and no notification already
exists for the exact `(event id, remindAt)` pair. -/
theorem tick_emits_iff_strictly_due (now : Int) (ex : List ReminderNotif)
    (events : List Event) (e : Event) :
    mkNotif e ∈ emitted now events ex ↔
      ∃ e2 ∈ events, mkNotif e2 = mkNotif e ∧ e2.reminder ≠ 0 ∧
        remindAt e2 < now ∧ now < e2.startInstant ∧
        ∀ r ∈ ex, ¬(r.id = e2.id ∧ r.message = remindAt e2) := by
  simp only [emitted]
  constructor
  · intro h
    rcases List.mem_map.mp h with ⟨a, haf, hme⟩
    rcases List.mem_filter.mp haf with ⟨ha, hd⟩
    rcases (dueAndNew_iff now ex a).mp hd with ⟨h1, h2, h3, h4⟩
    exact ⟨a, ha, hme, h1, h2, h3, h4⟩
  · rintro ⟨a, ha, hme, h1, h2, h3, h4⟩
    exact List.mem_map.mpr
      ⟨a, List.mem_filter.mpr ⟨ha, (dueAndNew_iff now ex a).mpr ⟨h1, h2, h3, h4⟩⟩, hme⟩

/-- C2, counterexample: `evZeroBuffer` carries `buffer = 0` explicitly, and
the candidate `candTouching` starts exactly at its nominal end
`start + duration` (minute 660) — under the claim's window
`[start, start + duration)` no conflict may be reported, yet
`checkConflicts` reports one, because `evt.buffer || 15` replaces the
explicit `0` with 15. -/
theorem zero_buffer_conflict_counterexample :
    evZeroBuffer.buffer = Option.some 0 ∧
    candTouching.startInstant = evZeroBuffer.startInstant + (evZeroBuffer.duration : Int) ∧
    checkConflicts candTouching [evZeroBuffer] = ["ZeroBuf"] := by decide

/-- C2 (amended): the conflict check substitutes the default 15 when the
stored event's buffer attribute is absent OR explicitly `0` (JavaScript
falsiness of `evt.buffer || 15`); only a present nonzero buffer `b` yields
the conflict window `start + duration + b`. -/
theorem buffer_fallback_on_zero (t : Draft) (e : Event) :
    ((e.buffer = Option.none ∨ e.buffer = Option.some 0) →
      (conflictsWith t e = true ↔ t.id ≠ Option.some e.id ∧
        t.startInstant < e.startInstant + (e.duration : Int) + 15 ∧
        e.startInstant < t.startInstant + (t.duration : Int) + (t.buffer : Int)))
  ∧ (∀ b : Nat, e.buffer = Option.some b → b ≠ 0 →
      (conflictsWith t e = true ↔ t.id ≠ Option.some e.id ∧
        t.startInstant < e.startInstant + (e.duration : Int) + (b : Int) ∧
        e.startInstant < t.startInstant + (t.duration : Int) + (t.buffer : Int))) := by
  constructor
  · intro hb
    have heff : e.effBuffer = 15 := by
      rcases hb with h | h <;> simp [Event.effBuffer, h]
    rw [conflictsWith_iff, heff]
    norm_num
  · intro b hb hb0
    have heff : e.effBuffer = b := by simp [Event.effBuffer, hb, hb0]
    rw [conflictsWith_iff, heff]

/-- Witness for `buffer_fallback_on_zero` at the concrete zero-buffer
fixture. -/
theorem buffer_fallback_on_zero_witness :
    conflictsWith candTouching evZeroBuffer = true ↔
      candTouching.id ≠ Option.some evZeroBuffer.id ∧
      candTouching.startInstant <
        evZeroBuffer.startInstant + (evZeroBuffer.duration : Int) + 15 ∧
      evZeroBuffer.startInstant <
        candTouching.startInstant + (candTouching.duration : Int) +
          (candTouching.buffer : Int) :=
  (buffer_fallback_on_zero candTouching evZeroBuffer).1 (Or.inr rfl)

/-- C3, counterexample: with the store `[evStandup]` and the unknown id 99,
deletion returns the store unchanged and the edit path completes with
outcome `edited` while changing nothing — there is no `NotFoundError`
anywhere: both operations are silent no-ops, which is exactly what the
claim denies. -/
theorem unknown_id_noop_counterexample :
    (∀ e ∈ [evStandup], e.id ≠ 99) ∧
    confirmDelete [evStandup] 99 = [evStandup] ∧
    handleAdd draftFar (Option.some 99) 0 [evStandup] =
      ([evStandup], AddOutcome.edited) := by decide

/-- C3 (amended): `DeleteEvent` with an id matching no stored event
silently leaves the store unchanged, and `EditEvent` with an unknown
nonzero id silently leaves the store unchanged; no error outcome of any
kind is produced for the missing id.  (An edit id of `0` is JS-falsy, so
`if (editEventId)` routes it to the add branch instead — it never reaches
the in-place edit at all.) -/
theorem unknown_id_silent_noop (events : List Event) (tid : Nat) (d : Draft)
    (nowMs : Nat) (h : ∀ e ∈ events, e.id ≠ tid) (h0 : tid ≠ 0) :
    confirmDelete events tid = events ∧
    (handleAdd d (Option.some tid) nowMs events).1 = events := by
  constructor
  · exact List.filter_eq_self.mpr fun e he => by simpa using h e he
  · by_cases hval : validate d = true
    · by_cases herr :
        checkConflicts d (events.filter fun e => Option.some e.id != Option.some tid) = []
      · simp only [handleAdd, hval, if_true, herr, if_pos, Option.getD_some]
        rw [if_pos h0]
        exact map_if_id_of_no_match tid (d.toEvent tid d.status) events h
      · simp [handleAdd, hval, herr]
    · simp [handleAdd, hval]

/-- Witness for `unknown_id_silent_noop` at a concrete store and id. -/
theorem unknown_id_silent_noop_witness :
    confirmDelete [evStandup] 42 = [evStandup] ∧
    (handleAdd draftFar (Option.some 42) 0 [evStandup]).1 = [evStandup] :=
  unknown_id_silent_noop [evStandup] 42 draftFar 0 (by decide) (by decide)

/-- C4: with conflict windows as the code computes them (candidate window
end `start + duration + buffer`, stored-event window end
`start + duration + effective buffer`), `checkConflicts` reports a stored
event exactly under the strict half-open intersection test
`candidate.start < other.end AND candidate.end > other.start`, and
touching windows — one window's end equal to the other's start — are never
reported. -/
theorem half_open_conflict_semantics (t : Draft) (l : List Event) (e : Event)
    (he : e ∈ l) :
    ((t.id ≠ Option.some e.id ∧
        t.startInstant < e.startInstant + (e.duration : Int) + (e.effBuffer : Int) ∧
        e.startInstant < t.startInstant + (t.duration : Int) + (t.buffer : Int)) →
      e.title ∈ checkConflicts t l)
  ∧ (checkConflicts t l = [] ↔ ∀ e2 ∈ l,
      ¬(t.id ≠ Option.some e2.id ∧
        t.startInstant < e2.startInstant + (e2.duration : Int) + (e2.effBuffer : Int) ∧
        e2.startInstant < t.startInstant + (t.duration : Int) + (t.buffer : Int)))
  ∧ ((t.startInstant + (t.duration : Int) + (t.buffer : Int) = e.startInstant ∨
       e.startInstant + (e.duration : Int) + (e.effBuffer : Int) = t.startInstant) →
      conflictsWith t e = false) := by
  refine ⟨?_, ?_, ?_⟩
  · intro hc
    exact List.mem_map.mpr
      ⟨e, List.mem_filter.mpr ⟨he, (conflictsWith_iff t e).mpr hc⟩, rfl⟩
  · rw [checkConflicts_eq_nil_iff]
    refine forall₂_congr fun e2 _ => ?_
    rw [← Bool.not_eq_true, conflictsWith_iff]
  · intro htouch
    cases hcw : conflictsWith t e with
    | false => rfl
    | true =>
      rcases (conflictsWith_iff t e).mp hcw with ⟨_, h1, h2⟩
      rcases htouch with h | h <;> omega

/-- Witness for `half_open_conflict_semantics`: the overlapping candidate
`candOverlap` is reported against `evStandup`, and the candidate starting
exactly at `evStandup`'s window end is not. -/
theorem half_open_conflict_semantics_witness :
    "Standup" ∈ checkConflicts candOverlap [evStandup] ∧
    conflictsWith candTouchWindow evStandup = false := by
  constructor
  · exact (half_open_conflict_semantics candOverlap [evStandup] evStandup
      (by decide)).1 (by decide)
  · exact (half_open_conflict_semantics candTouchWindow [evStandup] evStandup
      (by decide)).2.2 (by decide)

/-- C5: a failed `handleAdd` — whether rejected by validation (missing
title, date or time) or by a detected conflict — returns the store
completely unchanged, and a successful add appends the whole expanded
recurrence series in a single step. -/
theorem add_failure_atomic (d : Draft) (editId : Option Nat) (nowMs : Nat)
    (events : List Event) :
    (validate d = false →
      handleAdd d editId nowMs events = (events, AddOutcome.validationError))
  ∧ (validate d = true →
      checkConflicts d (events.filter fun e => Option.some e.id != editId) ≠ [] →
      handleAdd d editId nowMs events =
        (events, AddOutcome.conflictError
          (checkConflicts d (events.filter fun e => Option.some e.id != editId))))
  ∧ (validate d = true →
      checkConflicts d (events.filter fun e => Option.some e.id != editId) = [] →
      editId = Option.none →
      handleAdd d editId nowMs events =
        (events ++ expandSeries (d.toEvent nowMs "confirmed") d.freq nowMs,
          AddOutcome.added)) := by
  refine ⟨?_, ?_, ?_⟩
  · intro hv
    simp [handleAdd, hv]
  · intro hv herr
    simp [handleAdd, hv, herr]
  · intro hv herr hid
    subst hid
    simp [handleAdd, hv, herr]

/-- Witness for `add_failure_atomic`: the title-less draft is rejected by
validation and the clashing draft by the conflict check, both leaving the
concrete store `[evStandup]` untouched. -/
theorem add_failure_atomic_witness :
    handleAdd draftNoTitle Option.none 0 [evStandup] =
      ([evStandup], AddOutcome.validationError) ∧
    handleAdd draftClash Option.none 0 [evStandup] =
      ([evStandup], AddOutcome.conflictError
        (checkConflicts draftClash
          ([evStandup].filter fun e => Option.some e.id != Option.none))) :=
  ⟨(add_failure_atomic draftNoTitle Option.none 0 [evStandup]).1 (by decide),
   (add_failure_atomic draftClash Option.none 0 [evStandup]).2.1 (by decide)
     (by decide)⟩

/-- The series the claim describes for a weekly add: the base occurrence
followed by exactly five copies at +1..+5 weeks, identical in every field
except `id` (fresh) and `date`.  Spec-side description, compared against
the output of `handleAdd` in `weekly_expansion`. -/
def specWeeklySeries (d : Draft) (nowMs : Nat) : List Event :=
  d.toEvent nowMs "confirmed" ::
    (List.range 5).map fun i =>
      { d.toEvent nowMs "confirmed" with
          id := nowMs + (i + 1),
          date := (d.toEvent nowMs "confirmed").date + 7 * (i + 1) }

/-- C6: a weekly add whose base draft is valid and conflict-free commits
the base plus exactly 5 occurrences at +1..+5 weeks in one atomic append;
each occurrence copies every field of the base except `id` and `date`, the
six ids are pairwise distinct, and each member keeps the base's
time-of-day and day-of-week.  Only the base draft is conflict-checked: the
hypotheses constrain nothing about the expanded occurrences. -/
theorem weekly_expansion (d : Draft) (nowMs : Nat) (events : List Event)
    (ev : Event) (hf : d.freq = Frequency.weekly) (hv : validate d = true)
    (hc : checkConflicts d events = [])
    (hev : ev ∈ specWeeklySeries d nowMs) :
    handleAdd d Option.none nowMs events =
      (events ++ specWeeklySeries d nowMs, AddOutcome.added)
  ∧ (specWeeklySeries d nowMs).length = 6
  ∧ ((specWeeklySeries d nowMs).map Event.id).Nodup
  ∧ ev.time = (d.toEvent nowMs "confirmed").time
  ∧ ev.date % 7 = (d.toEvent nowMs "confirmed").date % 7 := by
  have hfil : (events.filter fun e => Option.some e.id != Option.none) = events :=
    List.filter_eq_self.mpr fun e _ => by simp
  refine ⟨?_, by simp [specWeeklySeries], ?_, ?_⟩
  · rw [handleAdd, if_pos hv]
    simp only [hfil, hc, if_pos rfl]
    have hne : ¬(d.freq = Frequency.none) := by
      rw [hf]
      decide
    rw [expandSeries, if_neg hne]
    simp [specWeeklySeries, hf, shiftDate]
  · have hmap : (specWeeklySeries d nowMs).map Event.id =
        nowMs :: (List.range 5).map fun i => nowMs + (i + 1) := by
      simp [specWeeklySeries, List.map_map]
      rfl
    rw [hmap]
    refine List.nodup_cons.mpr ⟨?_, ?_⟩
    · simp only [List.mem_map, List.mem_range]
      rintro ⟨i, -, hi⟩
      omega
    · exact List.Nodup.map (fun a b hab => by omega) (List.nodup_range 5)
  · rcases List.mem_cons.mp hev with h | h
    · subst h
      exact ⟨rfl, rfl⟩
    · rcases List.mem_map.mp h with ⟨i, -, rfl⟩
      refine ⟨rfl, ?_⟩
      show ((d.toEvent nowMs "confirmed").date + 7 * (i + 1)) % 7 =
        (d.toEvent nowMs "confirmed").date % 7
      omega

/-- The base occurrence of the concrete weekly fixture. -/
def weeklyBase : Event :=
  draftWeekly.toEvent 1000 "confirmed"

/-- The +1-week occurrence of the concrete weekly fixture. -/
def weeklyOcc1 : Event :=
  { weeklyBase with id := 1001, date := weeklyBase.date + 7 * 1 }

/-- Witness for `weekly_expansion`: the concrete weekly draft committed
into an empty store, checking the +1-week occurrence. -/
theorem weekly_expansion_witness :
    handleAdd draftWeekly Option.none 1000 [] =
      ([] ++ specWeeklySeries draftWeekly 1000, AddOutcome.added)
  ∧ (specWeeklySeries draftWeekly 1000).length = 6
  ∧ ((specWeeklySeries draftWeekly 1000).map Event.id).Nodup
  ∧ weeklyOcc1.time = (draftWeekly.toEvent 1000 "confirmed").time
  ∧ weeklyOcc1.date % 7 = (draftWeekly.toEvent 1000 "confirmed").date % 7 :=
  weekly_expansion draftWeekly 1000 [] weeklyOcc1
    (by decide) (by decide) (by decide) (by decide)

/-- Invariant satisfied by every slot the availability scan records: inside
the work window with room for the draft's duration, 30-minute aligned from
09:00, and conflict-free against the whole store. -/
def goodSlot (d : Draft) (events : List Event) (date : Nat) (t : Nat) : Prop :=
  540 ≤ t ∧ t + d.duration ≤ 1020 ∧ (∃ k, t = 540 + 30 * k) ∧
    (checkConflicts (mkSlotTest d date t) events).isEmpty = true

theorem availLoop_invariant (d : Draft) (events : List Event) (date : Nat) :
    ∀ (fuel cursor : Nat) (slots : List Nat),
      slots.length < 6 →
      (∀ t ∈ slots, goodSlot d events date t ∧ t < cursor) →
      slots.Pairwise (fun a b => a < b) →
      (∃ j, cursor = 540 + 30 * j) →
      (availLoop d events date fuel cursor slots).length ≤ 6 ∧
      (∀ t ∈ availLoop d events date fuel cursor slots, goodSlot d events date t) ∧
      (availLoop d events date fuel cursor slots).Pairwise (fun a b => a < b) := by
  intro fuel
  induction fuel with
  | zero =>
    intro cursor slots hlen hel hpw _
    rw [availLoop]
    exact ⟨Nat.le_of_lt hlen, fun t ht => (hel t ht).1, hpw⟩
  | succ n ih =>
    intro cursor slots hlen hel hpw hal
    rcases hal with ⟨j, hj⟩
    rw [availLoop]
    by_cases hcond : cursor + d.duration ≤ 1020
    · rw [if_pos hcond]
      by_cases hfree : (checkConflicts (mkSlotTest d date cursor) events).isEmpty = true
      · simp only [hfree, if_true]
        have hel' : ∀ t ∈ slots ++ [cursor],
            goodSlot d events date t ∧ t < cursor + 30 := by
          intro t ht
          rcases List.mem_append.mp ht with h | h
          · exact ⟨(hel t h).1, by have := (hel t h).2; omega⟩
          · rcases List.mem_singleton.mp h with rfl
            exact ⟨⟨by omega, hcond, ⟨j, hj⟩, hfree⟩, by omega⟩
        have hpw' : (slots ++ [cursor]).Pairwise (fun a b => a < b) := by
          refine List.pairwise_append.mpr ⟨hpw, List.pairwise_singleton _ _, ?_⟩
          intro a ha b hb
          rcases List.mem_singleton.mp hb with rfl
          exact (hel a ha).2
        by_cases hsix : 6 ≤ (slots ++ [cursor]).length
        · rw [if_pos hsix]
          refine ⟨?_, fun t ht => (hel' t ht).1, hpw'⟩
          simp only [List.length_append, List.length_singleton]
          omega
        · rw [if_neg hsix]
          refine ih (cursor + 30) (slots ++ [cursor]) ?_ hel' hpw' ⟨j + 1, by omega⟩
          simp only [List.length_append, List.length_singleton] at hsix ⊢
          omega
      · rw [if_neg hfree]
        have hel' : ∀ t ∈ slots, goodSlot d events date t ∧ t < cursor + 30 :=
          fun t ht => ⟨(hel t ht).1, by have := (hel t ht).2; omega⟩
        by_cases hsix : 6 ≤ slots.length
        · rw [if_pos hsix]
          exact ⟨by omega, fun t ht => (hel t ht).1, hpw⟩
        · rw [if_neg hsix]
          exact ih (cursor + 30) slots (by omega) hel' hpw ⟨j + 1, by omega⟩
    · rw [if_neg hcond]
      exact ⟨Nat.le_of_lt hlen, fun t ht => (hel t ht).1, hpw⟩

/-- C7: for every date, draft and event collection, the availability scan
returns at most 6 entries; every entry `t` satisfies `09:00 ≤ t` and
`t + duration ≤ 17:00` (minutes 540 and 1020), lies on the 30-minute grid
from 09:00, and the entries are in strictly increasing order. -/
theorem findSlots_bounds (d : Draft) (events : List Event) (date : Nat) :
    (generateAvailabilities d events date).length ≤ 6 ∧
    (∀ t ∈ generateAvailabilities d events date,
      540 ≤ t ∧ t + d.duration ≤ 1020 ∧ ∃ k, t = 540 + 30 * k) ∧
    (generateAvailabilities d events date).Pairwise (fun a b => a < b) := by
  have h := availLoop_invariant d events date 17 540 []
    (by simp) (by simp) List.Pairwise.nil ⟨0, by omega⟩
  refine ⟨h.1, fun t ht => ?_, h.2.2⟩
  rcases h.2.1 t ht with ⟨h1, h2, h3, -⟩
  exact ⟨h1, h2, h3⟩

/-- C10: the probe the availability scan tests carries no id, so the scan
never excludes any stored event from its conflict check: a returned slot's
window overlaps no stored event's conflict window — in particular, while
editing an event, slots overlapping that event's own window are not
returned even though the event is being rescheduled. -/
theorem slots_check_all_events (d : Draft) (events : List Event) (date : Nat)
    (t : Nat) (e : Event) (ht : t ∈ generateAvailabilities d events date)
    (he : e ∈ events) :
    (mkSlotTest d date t).id = Option.none ∧
    ¬((mkSlotTest d date t).startInstant <
        e.startInstant + (e.duration : Int) + (e.effBuffer : Int) ∧
      e.startInstant < (mkSlotTest d date t).startInstant +
        ((mkSlotTest d date t).duration : Int) +
          ((mkSlotTest d date t).buffer : Int)) := by
  have h := availLoop_invariant d events date 17 540 []
    (by simp) (by simp) List.Pairwise.nil ⟨0, by omega⟩
  have hempty := (h.2.1 t ht).2.2.2
  have hfc := (checkConflicts_isEmpty_iff (mkSlotTest d date t) events).mp hempty e he
  refine ⟨rfl, ?_⟩
  rintro ⟨h1, h2⟩
  have hcw : conflictsWith (mkSlotTest d date t) e = true :=
    (conflictsWith_iff (mkSlotTest d date t) e).mpr ⟨by simp [mkSlotTest], h1, h2⟩
  rw [hfc] at hcw
  cases hcw

/-- Witness for `slots_check_all_events`: minute 690 (11:30) is the first
slot returned for `draftClash` against the store `[evStandup]`, and its
window does not overlap `evStandup`'s. -/
theorem slots_check_all_events_witness :
    (mkSlotTest draftClash 0 690).id = Option.none ∧
    ¬((mkSlotTest draftClash 0 690).startInstant <
        evStandup.startInstant + (evStandup.duration : Int) +
          (evStandup.effBuffer : Int) ∧
      evStandup.startInstant < (mkSlotTest draftClash 0 690).startInstant +
        ((mkSlotTest draftClash 0 690).duration : Int) +
          ((mkSlotTest draftClash 0 690).buffer : Int)) :=
  slots_check_all_events draftClash [evStandup] 0 690 evStandup
    (by decide) (by decide)

theorem mem_emitted_of_due (now : Int) (ex : List ReminderNotif)
    (events : List Event) (e : Event) (he : e ∈ events)
    (hd : dueAndNew now ex e = true) :
    mkNotif e ∈ emitted now events ex :=
  List.mem_map.mpr ⟨e, List.mem_filter.mpr ⟨he, hd⟩, rfl⟩

/-- C8: when stored events carry pairwise distinct ids and the notification
list holds no two entries with the same `(event id, remindAt)` key, the
list after a tick still holds no such pair; and re-running `tick` with the
same `now`, the same events and the list the previous tick produced emits
nothing new (the tick is idempotent, unconditionally). -/
theorem tick_nodup_and_idempotent (now : Int) (events : List Event)
    (ex : List ReminderNotif) :
    ((events.map Event.id).Nodup →
      ex.Pairwise (fun r s => r.id ≠ s.id ∨ r.message ≠ s.message) →
      (tick now events ex).Pairwise (fun r s => r.id ≠ s.id ∨ r.message ≠ s.message))
  ∧ tick now events (tick now events ex) = tick now events ex := by
  constructor
  · intro hids hex
    rw [tick]
    refine List.pairwise_append.mpr ⟨hex, ?_, ?_⟩
    · rw [emitted, List.pairwise_map]
      have h1 : events.Pairwise (fun a b => a.id ≠ b.id) :=
        List.pairwise_map.mp hids
      exact (h1.filter (dueAndNew now ex)).imp fun h => Or.inl h
    · intro r hr s hs
      rcases List.mem_map.mp hs with ⟨a, haf, rfl⟩
      rcases List.mem_filter.mp haf with ⟨-, hd⟩
      have h4 := ((dueAndNew_iff now ex a).mp hd).2.2.2 r hr
      by_cases hid : r.id = a.id
      · exact Or.inr fun hm => h4 ⟨hid, hm⟩
      · exact Or.inl hid
  · rw [tick, tick]
    have hz : emitted now events (ex ++ emitted now events ex) = [] := by
      rw [emitted, List.map_eq_nil_iff, List.filter_eq_nil_iff]
      intro e he hd
      rcases (dueAndNew_iff now (ex ++ emitted now events ex) e).mp hd with
        ⟨h1, h2, h3, h4⟩
      by_cases hd0 : dueAndNew now ex e = true
      · exact h4 (mkNotif e)
          (List.mem_append_right ex (mem_emitted_of_due now ex events e he hd0))
          ⟨rfl, rfl⟩
      · have hnot : ¬(e.reminder ≠ 0 ∧ remindAt e < now ∧ now < e.startInstant ∧
            ∀ r ∈ ex, ¬(r.id = e.id ∧ r.message = remindAt e)) :=
          fun hall => hd0 ((dueAndNew_iff now ex e).mpr hall)
        push_neg at hnot
        rcases hnot h1 h2 h3 with ⟨r, hr, hmr⟩
        exact h4 r (List.mem_append_left _ hr) hmr
    rw [hz, List.append_nil]

/-- Witness for `tick_nodup_and_idempotent` at `now` = 595, where
`evStandup` is due (`remindAt` = 590 < 595 < 600). -/
theorem tick_nodup_and_idempotent_witness :
    (tick 595 [evStandup] []).Pairwise
      (fun r s => r.id ≠ s.id ∨ r.message ≠ s.message) ∧
    tick 595 [evStandup] (tick 595 [evStandup] []) = tick 595 [evStandup] [] :=
  ⟨(tick_nodup_and_idempotent 595 [evStandup] []).1 (by decide) List.Pairwise.nil,
   (tick_nodup_and_idempotent 595 [evStandup] []).2⟩

/-- C9, counterexample: editing the stored weekly event whose id is `0`
does not replace it in place.  The guard `if (editEventId)` is falsy for
the id `0`, so the source takes the add branch: with the store
`[evZeroId]` the result has outcome `added` and length 7 (the old event,
a fresh base and 5 re-expanded weekly occurrences), contradicting the
claimed length preservation and absence of new occurrences. -/
theorem edit_zero_id_reexpands_counterexample :
    (handleAdd draftEditZero (Option.some 0) 2000 [evZeroId]).2 =
      AddOutcome.added ∧
    (handleAdd draftEditZero (Option.some 0) 2000 [evZeroId]).1.length = 7 ∧
    evZeroId.freq = Frequency.weekly := by decide

/-- C9 (amended): a successful edit under a nonzero edit id never
re-expands recurrence, whatever the draft's `repeat`: the store after the
edit is an element-wise map that replaces exactly the events whose id
matches, keeps every other event and every position, preserves the
length, and forces the replacement's id to the edited id.  (For the edit
id `0` the JS-falsy guard `if (editEventId)` routes to the add branch,
which appends a fresh event and re-expands the recurrence instead.) -/
theorem edit_replaces_in_place (d : Draft) (eid : Nat) (nowMs : Nat)
    (events : List Event) (i : Nat) (h0 : eid ≠ 0) (hv : validate d = true)
    (hc : checkConflicts d
      (events.filter fun e => Option.some e.id != Option.some eid) = []) :
    handleAdd d (Option.some eid) nowMs events =
      (events.map fun e => if e.id = eid then d.toEvent eid d.status else e,
        AddOutcome.edited)
  ∧ (handleAdd d (Option.some eid) nowMs events).1.length = events.length
  ∧ (handleAdd d (Option.some eid) nowMs events).1[i]? =
      ((events[i]?).map fun e => if e.id = eid then d.toEvent eid d.status else e)
  ∧ (Draft.toEvent d eid d.status).id = eid := by
  have hmain : handleAdd d (Option.some eid) nowMs events =
      (events.map fun e => if e.id = eid then d.toEvent eid d.status else e,
        AddOutcome.edited) := by
    simp only [handleAdd, hv, if_true, hc, if_pos, Option.getD_some]
    rw [if_pos h0]
  refine ⟨hmain, ?_, ?_, rfl⟩
  · rw [hmain]
    simp
  · rw [hmain]
    simp [List.getElem?_map]

/-- Witness for `edit_replaces_in_place`: editing `evStandup` (id 1) with
the far-away draft. -/
theorem edit_replaces_in_place_witness :
    handleAdd draftFar (Option.some 1) 0 [evStandup] =
      ([evStandup].map fun e =>
        if e.id = 1 then draftFar.toEvent 1 draftFar.status else e,
        AddOutcome.edited)
  ∧ (handleAdd draftFar (Option.some 1) 0 [evStandup]).1.length =
      [evStandup].length
  ∧ (handleAdd draftFar (Option.some 1) 0 [evStandup]).1[0]? =
      (([evStandup][0]?).map fun e =>
        if e.id = 1 then draftFar.toEvent 1 draftFar.status else e)
  ∧ (Draft.toEvent draftFar 1 draftFar.status).id = 1 :=
  edit_replaces_in_place draftFar 1 0 [evStandup] 0 (by decide) (by decide)
    (by decide)

/-- Witness for `tick_emits_iff_strictly_due`: at `now` = 595, strictly
between `remindAt evStandup` = 590 and the start 600, the notification is
emitted. -/
theorem tick_emits_iff_strictly_due_witness :
    mkNotif evStandup ∈ emitted 595 [evStandup] [] :=
  (tick_emits_iff_strictly_due 595 [] [evStandup] evStandup).mpr
    ⟨evStandup, by decide, rfl, by decide, by decide, by decide, by decide⟩

/-- Witness for `findSlots_bounds` at the concrete scan of `draftClash`
against `[evStandup]`, whose first returned slot is minute 690. -/
theorem findSlots_bounds_witness :
    (generateAvailabilities draftClash [evStandup] 0).length ≤ 6 ∧
    (540 ≤ 690 ∧ 690 + draftClash.duration ≤ 1020 ∧
      ∃ k, (690 : Nat) = 540 + 30 * k) ∧
    (generateAvailabilities draftClash [evStandup] 0).Pairwise
      (fun a b => a < b) :=
  ⟨(findSlots_bounds draftClash [evStandup] 0).1,
   (findSlots_bounds draftClash [evStandup] 0).2.1 690 (by decide),
   (findSlots_bounds draftClash [evStandup] 0).2.2⟩

end FlowCal
